import Mathlib

/-!
Verification of the session/resource-management core of an Azure Synapse
MCP server, shallowly embedded from the TypeScript sources:

* `src/config/config.ts` — `retryOperation` (resilient request executor),
  `TenantManager` (tenant registry);
* `src/utils/connection-pool.ts` — `ConnectionPool` (keyed session pool,
  request coalescing, TTL result cache);
* `src/services/azure-auth.service.ts` — `AzureAuthService` (token cache);
* `src/operations/synapse-operations.ts` — `SynapseOperations.executeSqlQuery`.

Asynchronous operations are embedded as pure functions over explicit state,
with the results of external I/O (credential acquisition, socket connect,
statement execution) supplied as oracle arguments; the single-threaded
event-loop interleaving of the pool is embedded as a small-step transition
system whose steps are the synchronous (suspension-free) segments of the
source code.
-/

namespace SynapseMCP

/-! ## Resilient request executor (`retryOperation`, src/config/config.ts 505–542)

Errors reaching `retryOperation` in this program are either a
`SynapseApiError` (the artifact service wraps every HTTP failure that has a
response status into one, `src/services/artifact.service.ts 83`), carrying
`statusCode`, or some other error with just a message. -/

inductive OpError where
  | synapseApi (message : String) (statusCode : Nat)
  | other (message : String)
deriving DecidableEq, Repr

/-- The classification in `retryOperation`'s catch block: only a
`SynapseApiError` with `400 <= statusCode < 500` stops the retry loop early. -/
def isNonRetryableClientError : OpError → Bool
  | .synapseApi _ s => decide (400 ≤ s) && decide (s < 500)
  | .other _ => false

/-- Outcome of one invocation of the wrapped operation. -/
inductive OpOutcome (α : Type) where
  | ok (v : α)
  | fail (e : OpError)
deriving DecidableEq, Repr

/-- Observable behaviour of a `retryOperation` run: the final settled value,
how many times the wrapped operation was invoked, and the backoff delays
slept between consecutive invocations, in order. -/
structure RetryResult (α : Type) where
  result : Except OpError α
  invocations : Nat
  delays : List Nat
deriving Repr

/-- The `for (let attempt = 0; attempt <= maxRetries; attempt++)` loop of
`retryOperation`, with `remaining = maxRetries - attempt` made explicit
(`remaining = 0` is the last permitted attempt: `attempt === maxRetries`
breaks before the retryability check, exactly as in the source). The wrapped
operation is an oracle from the attempt index to its outcome. -/
def retryLoop {α : Type} (op : Nat → OpOutcome α) (baseDelay : Nat) :
    Nat → Nat → RetryResult α
  | attempt, 0 =>
    match op attempt with
    | .ok v => ⟨.ok v, 1, []⟩
    | .fail e => ⟨.error e, 1, []⟩
  | attempt, remaining + 1 =>
    match op attempt with
    | .ok v => ⟨.ok v, 1, []⟩
    | .fail e =>
      if isNonRetryableClientError e then ⟨.error e, 1, []⟩
      else
        let rest := retryLoop op baseDelay (attempt + 1) remaining
        ⟨rest.result, rest.invocations + 1, baseDelay * 2 ^ attempt :: rest.delays⟩

/-- Source default `maxRetries = 3`: up to 4 invocations in total. -/
def defaultMaxRetries : Nat := 3

/-- Source default `baseDelay = 1000` milliseconds. -/
def defaultBaseDelay : Nat := 1000

def retryOperation {α : Type} (op : Nat → OpOutcome α)
    (maxRetries : Nat) (baseDelay : Nat) : RetryResult α :=
  retryLoop op baseDelay 0 maxRetries

/-- If the operation fails on the first `k` attempts with retryable errors and
succeeds on attempt `attempt + k`, the loop returns that success after `k + 1`
invocations, sleeping `baseDelay * 2 ^ i` before each retry. -/
theorem retryLoop_succeeds {α : Type} (op : Nat → OpOutcome α) (baseDelay : Nat) (v : α) :
    ∀ (k attempt remaining : Nat), k ≤ remaining →
      (∀ j, j < k → ∃ e, op (attempt + j) = .fail e ∧ isNonRetryableClientError e = false) →
      op (attempt + k) = .ok v →
      retryLoop op baseDelay attempt remaining =
        ⟨.ok v, k + 1, (List.range k).map (fun i => baseDelay * 2 ^ (attempt + i))⟩ := by
  intro k
  induction k with
  | zero =>
    intro attempt remaining _ _ hok
    rcases remaining with _ | r <;> simp [retryLoop, Nat.add_zero] at hok ⊢ <;>
      rw [hok]
  | succ k ih =>
    intro attempt remaining hle hfail hok
    rcases remaining with _ | r
    · omega
    · obtain ⟨e0, he0, htrans0⟩ := hfail 0 (Nat.succ_pos k)
      rw [Nat.add_zero] at he0
      have hrest := ih (attempt + 1) r (Nat.le_of_succ_le_succ hle)
        (fun j hj => by
          obtain ⟨e, he, ht⟩ := hfail (j + 1) (Nat.succ_lt_succ hj)
          exact ⟨e, by rwa [show attempt + 1 + j = attempt + (j + 1) by omega], ht⟩)
        (by rwa [show attempt + 1 + k = attempt + (k + 1) by omega])
      simp only [retryLoop, he0, htrans0, if_neg, Bool.false_eq_true, not_false_iff, hrest]
      refine congrArg (RetryResult.mk (Except.ok v) (k + 1 + 1)) ?_
      rw [List.range_succ_eq_map, List.map_cons, List.map_map]
      refine congrArg₂ List.cons (by rw [Nat.add_zero]) ?_
      exact List.map_congr_left (fun i _ => by
        simp only [Function.comp]
        rw [show attempt + 1 + i = attempt + (i + 1) by omega])

/-- If the operation fails with a retryable error on every permitted attempt,
the loop performs all `remaining + 1` invocations with exponential backoff
between them and settles with the last observed error. -/
theorem retryLoop_exhausts {α : Type} (op : Nat → OpOutcome α) (baseDelay : Nat)
    (errs : Nat → OpError) :
    ∀ (remaining attempt : Nat),
      (∀ j, j ≤ remaining → op (attempt + j) = .fail (errs (attempt + j))) →
      (∀ j, j < remaining → isNonRetryableClientError (errs (attempt + j)) = false) →
      retryLoop op baseDelay attempt remaining =
        ⟨.error (errs (attempt + remaining)), remaining + 1,
          (List.range remaining).map (fun i => baseDelay * 2 ^ (attempt + i))⟩ := by
  intro remaining
  induction remaining with
  | zero =>
    intro attempt hfail _
    have h0 := hfail 0 (Nat.le_refl 0)
    rw [Nat.add_zero] at h0
    simp [retryLoop, h0]
  | succ r ih =>
    intro attempt hfail htrans
    have h0 := hfail 0 (Nat.zero_le _)
    rw [Nat.add_zero] at h0
    have ht0 := htrans 0 (Nat.succ_pos r)
    rw [Nat.add_zero] at ht0
    have hrest := ih (attempt + 1)
      (fun j hj => by
        have := hfail (j + 1) (Nat.succ_le_succ hj)
        rwa [show attempt + (j + 1) = attempt + 1 + j by omega] at this)
      (fun j hj => by
        have := htrans (j + 1) (Nat.succ_lt_succ hj)
        rwa [show attempt + (j + 1) = attempt + 1 + j by omega] at this)
    simp only [retryLoop, h0, ht0, if_neg, Bool.false_eq_true, not_false_iff, hrest]
    refine congrArg₂ (fun res ds => RetryResult.mk res (r + 1 + 1) ds) ?_ ?_
    · rw [show attempt + 1 + r = attempt + (r + 1) by omega]
    · rw [List.range_succ_eq_map, List.map_cons, List.map_map]
      refine congrArg₂ List.cons (by rw [Nat.add_zero]) ?_
      exact List.map_congr_left (fun i _ => by
        simp only [Function.comp]
        rw [show attempt + 1 + i = attempt + (i + 1) by omega])

/-- C2: an operation that always fails with an error carrying an HTTP-like
status code in [400,500) (e.g. 404) is invoked exactly once by
`retryOperation`, which raises that error immediately, with no retry and no
backoff delay. -/
theorem retryOperation_clientError_single_invocation {α : Type}
    (op : Nat → OpOutcome α) (msg : String) (status : Nat)
    (maxRetries baseDelay : Nat)
    (hop : ∀ n, op n = .fail (.synapseApi msg status))
    (h400 : 400 ≤ status) (h500 : status < 500) :
    retryOperation op maxRetries baseDelay =
      ⟨.error (.synapseApi msg status), 1, []⟩ := by
  unfold retryOperation
  have hc : isNonRetryableClientError (.synapseApi msg status) = true := by
    simp only [isNonRetryableClientError, Bool.and_eq_true, decide_eq_true_eq]
    exact ⟨h400, h500⟩
  cases maxRetries with
  | zero => simp [retryLoop, hop 0]
  | succ n => simp [retryLoop, hop 0, hc]

theorem retryOperation_clientError_single_invocation_witness :
    retryOperation (fun _ => (OpOutcome.fail (.synapseApi "Not Found" 404) : OpOutcome Nat))
      defaultMaxRetries defaultBaseDelay =
      ⟨.error (.synapseApi "Not Found" 404), 1, []⟩ :=
  retryOperation_clientError_single_invocation _ "Not Found" 404
    defaultMaxRetries defaultBaseDelay (fun _ => rfl) (by decide) (by decide)

/-- C5: failures without a client-error status are transient: `retryOperation`
re-invokes after `baseDelay * 2 ^ attemptIndex` before each retry, performs at
most `maxRetries + 1` attempts (4 in total with the defaults
`maxRetries = 3`, `baseDelay = 1000` ms), returns the operation's result as
soon as an attempt `N ≤ maxRetries + 1` succeeds, and once attempts are
exhausted fails with the last observed error. -/
theorem retryOperation_transient_policy {α : Type} (op : Nat → OpOutcome α)
    (maxRetries baseDelay : Nat) (errs : Nat → OpError)
    (htrans : ∀ n, isNonRetryableClientError (errs n) = false) :
    (∀ N v, 1 ≤ N → N ≤ maxRetries + 1 →
      (∀ j, j + 1 < N → op j = .fail (errs j)) →
      op (N - 1) = .ok v →
      retryOperation op maxRetries baseDelay =
        ⟨.ok v, N, (List.range (N - 1)).map (fun i => baseDelay * 2 ^ i)⟩) ∧
    ((∀ j, j ≤ maxRetries → op j = .fail (errs j)) →
      retryOperation op maxRetries baseDelay =
        ⟨.error (errs maxRetries), maxRetries + 1,
          (List.range maxRetries).map (fun i => baseDelay * 2 ^ i)⟩) ∧
    defaultMaxRetries + 1 = 4 ∧ defaultBaseDelay = 1000 := by
  refine ⟨?_, ?_, rfl, rfl⟩
  · intro N v h1 hle hfail hok
    have h := retryLoop_succeeds op baseDelay v (N - 1) 0 maxRetries (by omega)
      (fun j hj => ⟨errs j, by
        rw [Nat.zero_add]; exact ⟨hfail j (by omega), htrans j⟩⟩)
      (by rwa [Nat.zero_add])
    rw [retryOperation, h]
    have : N - 1 + 1 = N := by omega
    rw [this]
    exact congrArg (RetryResult.mk (Except.ok v) N)
      (List.map_congr_left (fun i _ => by rw [Nat.zero_add]))
  · intro hfail
    have h := retryLoop_exhausts op baseDelay errs maxRetries 0
      (fun j hj => by rw [Nat.zero_add]; exact hfail j hj)
      (fun j _ => by rw [Nat.zero_add]; exact htrans j)
    rw [retryOperation, h, Nat.zero_add]
    exact congrArg (RetryResult.mk (Except.error (errs maxRetries)) (maxRetries + 1))
      (List.map_congr_left (fun i _ => by rw [Nat.zero_add]))

theorem retryOperation_transient_policy_witness :
    retryOperation
      (fun n => if n < 2 then OpOutcome.fail (.other "ETIMEDOUT") else .ok (42 : Nat))
      defaultMaxRetries defaultBaseDelay =
      ⟨.ok 42, 3, [1000, 2000]⟩ := by
  have h := (retryOperation_transient_policy
      (fun n => if n < 2 then OpOutcome.fail (.other "ETIMEDOUT") else .ok (42 : Nat))
      defaultMaxRetries defaultBaseDelay (fun _ => .other "ETIMEDOUT")
      (fun _ => rfl)).1 3 42 (by decide) (by decide)
      (fun j hj => by
        have hj2 : j < 2 := by omega
        interval_cases j <;> rfl) rfl
  simpa [defaultBaseDelay, List.range_succ] using h

/-! ## JavaScript `Map` as an association list

`Map.get` / `Map.set` / `Map.delete` on string keys, with `set` replacing any
existing binding for the key. Keys are unique as long as every update goes
through these operations. -/

def mapGet {α : Type} (m : List (String × α)) (k : String) : Option α :=
  (m.find? (fun p => p.1 == k)).map (·.2)

def mapSet {α : Type} (m : List (String × α)) (k : String) (v : α) :
    List (String × α) :=
  (k, v) :: m.filter (fun p => p.1 != k)

def mapDelete {α : Type} (m : List (String × α)) (k : String) :
    List (String × α) :=
  m.filter (fun p => p.1 != k)

/-- The key set of the association list has no duplicates — the sense in
which a JavaScript `Map` holds at most one entry per key. -/
def KeysNodup {α : Type} (m : List (String × α)) : Prop :=
  (m.map (·.1)).Nodup

theorem keysNodup_nil {α : Type} : KeysNodup ([] : List (String × α)) :=
  List.nodup_nil

theorem keysNodup_filter {α : Type} (m : List (String × α))
    (f : String × α → Bool) (h : KeysNodup m) : KeysNodup (m.filter f) := by
  unfold KeysNodup at h ⊢
  exact h.sublist ((List.filter_sublist m).map (·.1))

theorem keysNodup_mapDelete {α : Type} (m : List (String × α)) (k : String)
    (h : KeysNodup m) : KeysNodup (mapDelete m k) :=
  keysNodup_filter m _ h

theorem keysNodup_mapSet {α : Type} (m : List (String × α)) (k : String) (v : α)
    (h : KeysNodup m) : KeysNodup (mapSet m k v) := by
  unfold KeysNodup mapSet
  rw [List.map_cons]
  refine List.nodup_cons.mpr ⟨?_, keysNodup_filter m _ h⟩
  intro hmem
  obtain ⟨⟨k', v'⟩, hmem', hk⟩ := List.mem_map.mp hmem
  have := (List.mem_filter.mp hmem').2
  simp only [bne_iff_ne, ne_eq, decide_eq_true_eq] at this
  exact this hk

theorem keysNodup_updateValues {α : Type} (m : List (String × α))
    (f : String × α → String × α) (hf : ∀ p, (f p).1 = p.1) (h : KeysNodup m) :
    KeysNodup (m.map f) := by
  unfold KeysNodup at h ⊢
  rw [List.map_map]
  have : ((·.1) ∘ f : String × α → String) = (·.1) := funext (fun p => hf p)
  rw [this]
  exact h

/-! ## Connection pool (`ConnectionPool`, src/utils/connection-pool.ts)

A pooled session is a `tedious` `Connection`; the pool's health check at
line 52 compares its state against `LOGGED_IN`. A connection leaves the
`LOGGED_IN` state while a statement is executing on it (`executeQuery`
submits via `connection.execSql`, line 190) and re-enters it when the request
completes, without any change to the pool's maps. We model a connection by an
identifier plus that one observable bit. -/

structure Conn where
  id : Nat
  loggedIn : Bool
deriving DecidableEq, Repr

/-- The two key-indexed maps of `ConnectionPool`: `connections` (line 26) and
`connectionPromises` (line 28, in-flight creations, identified here by a
promise id). The query cache is modelled separately. -/
structure PoolState where
  connections : List (String × Conn)
  promises : List (String × Nat)
deriving DecidableEq, Repr

def poolInit : PoolState := ⟨[], []⟩

/-- What the synchronous prefix of `getConnection` (lines 48–64) does for the
calling task: return a ready pooled session, await an existing in-flight
creation, or start (and publish) a new creation. -/
inductive GetConnOutcome where
  | ready (c : Conn)
  | awaitExisting (p : Nat)
  | startNew (p : Nat)
deriving DecidableEq, Repr

/-- The in-flight creation promise the caller ends up awaiting, if any;
both `awaitExisting` and `startNew` callers settle with that promise's
eventual value. -/
def awaitedPromise : GetConnOutcome → Option Nat
  | .ready _ => none
  | .awaitExisting p => some p
  | .startNew p => some p

/-- Whether the outcome started a new underlying connect attempt
(`createConnection` called, lines 63–64). -/
def startsAttempt : GetConnOutcome → Bool
  | .startNew _ => true
  | _ => false

/-- Lines 56–64: no ready session was found; check `connectionPromises`,
else create and publish a new in-flight creation. This segment contains no
`await`, so it is one atomic step of the event loop. -/
def getConnectionNoReady (st : PoolState) (key : String) (fresh : Nat) :
    GetConnOutcome × PoolState :=
  match mapGet st.promises key with
  | some p => (.awaitExisting p, st)
  | none => (.startNew fresh, { st with promises := mapSet st.promises key fresh })

/-- Lines 48–64 of `getConnection`: the full synchronous prefix, starting with
the health check `existingConnection.state === STATE.LOGGED_IN` (line 52). -/
def getConnectionStep (st : PoolState) (key : String) (fresh : Nat) :
    GetConnOutcome × PoolState :=
  match mapGet st.connections key with
  | some c =>
    if c.loggedIn then (.ready c, st)
    else getConnectionNoReady st key fresh
  | none => getConnectionNoReady st key fresh

/-- Lines 67–69: the creation promise for `key` resolved with connection `c`;
the session is published and the in-flight marker removed (no `await`
between the two map updates). -/
def settleSuccess (st : PoolState) (key : String) (c : Conn) : PoolState :=
  { connections := mapSet st.connections key c,
    promises := mapDelete st.promises key }

/-- Lines 71–73: the creation promise for `key` rejected; only the in-flight
marker is removed. -/
def settleFailure (st : PoolState) (key : String) : PoolState :=
  { st with promises := mapDelete st.promises key }

/-- Lines 92–100: the `error` / `end` observers delete the key from the pool. -/
def connDropped (st : PoolState) (key : String) : PoolState :=
  { st with connections := mapDelete st.connections key }

/-- `closeConnection` (lines 204–213). -/
def closeConnectionStep (st : PoolState) (key : String) : PoolState :=
  { st with connections := mapDelete st.connections key }

/-- `closeAll` (lines 215–227): `connections.clear()`. -/
def closeAllStep (st : PoolState) : PoolState :=
  { st with connections := [] }

/-- The pooled connection at `key` (if any) leaves or re-enters the
`LOGGED_IN` state (statement execution via `executeQuery`/`execSql`). -/
def setConnLoggedIn (st : PoolState) (key : String) (b : Bool) : PoolState :=
  { st with
    connections := st.connections.map
      (fun p => if p.1 == key then (p.1, { p.2 with loggedIn := b }) else p) }

/-- The events of the event-loop model; each corresponds to one synchronous
segment of the source that touches the pool's maps or a pooled connection's
state. -/
inductive PoolEvent where
  | getConn (key : String) (fresh : Nat)
  | settleOk (key : String) (c : Conn)
  | settleErr (key : String)
  | connError (key : String)
  | connEnd (key : String)
  | closeConn (key : String)
  | closeAll
  | execStart (key : String)
  | execEnd (key : String)
deriving DecidableEq, Repr

def applyEvent (st : PoolState) : PoolEvent → PoolState
  | .getConn key fresh => (getConnectionStep st key fresh).2
  | .settleOk key c => settleSuccess st key c
  | .settleErr key => settleFailure st key
  | .connError key => connDropped st key
  | .connEnd key => connDropped st key
  | .closeConn key => closeConnectionStep st key
  | .closeAll => closeAllStep st
  | .execStart key => setConnLoggedIn st key false
  | .execEnd key => setConnLoggedIn st key true

/-- When an event can actually occur: a creation settles only while its
in-flight marker is registered, a successful connect hands over a logged-in
connection (the `connect` callback fired without error), and a statement
starts executing only on a session handed out by the pool. -/
def eventEnabled (st : PoolState) : PoolEvent → Bool
  | .getConn _ _ => true
  | .settleOk key c => (mapGet st.promises key).isSome && c.loggedIn
  | .settleErr key => (mapGet st.promises key).isSome
  | .connError key => (mapGet st.connections key).isSome
  | .connEnd key => (mapGet st.connections key).isSome
  | .closeConn _ => true
  | .closeAll => true
  | .execStart key => (mapGet st.connections key).isSome
  | .execEnd key => (mapGet st.connections key).isSome

/-- States of the pool reachable from a fresh `ConnectionPool` by interleaved
event-loop steps. -/
inductive Reachable : PoolState → Prop where
  | init : Reachable poolInit
  | step (st : PoolState) (e : PoolEvent) (h : Reachable st)
      (henabled : eventEnabled st e = true) : Reachable (applyEvent st e)

theorem mapGet_mapSet_self {α : Type} (m : List (String × α)) (k : String) (v : α) :
    mapGet (mapSet m k v) k = some v := by
  unfold mapGet mapSet
  rw [List.find?_cons_of_pos _ (by simp)]
  rfl

theorem mapGet_mapDelete_self {α : Type} (m : List (String × α)) (k : String) :
    mapGet (mapDelete m k) k = none := by
  unfold mapGet mapDelete
  rw [List.find?_eq_none.mpr]
  · rfl
  · intro x hx
    have := (List.mem_filter.mp hx).2
    simp only [bne_iff_ne, ne_eq, decide_eq_true_eq] at this
    simpa using this

/-- C1: with no ready pooled session and no in-flight creation for the key,
the first `getConnection` call starts exactly one underlying connect attempt
and publishes it as the in-flight creation; a second call for the same key
issued before that attempt settles starts no attempt and awaits the very same
promise, so both callers settle with the same resulting session; and when the
attempt settles, the session is published under the key and the in-flight
marker removed. -/
theorem getConnection_coalesces (st : PoolState) (key : String) (p q : Nat) (c : Conn)
    (hnoReady : ∀ d, mapGet st.connections key = some d → d.loggedIn = false)
    (hnoInflight : mapGet st.promises key = none) :
    (getConnectionStep st key p).1 = .startNew p ∧
    (getConnectionStep (getConnectionStep st key p).2 key q).1 = .awaitExisting p ∧
    (getConnectionStep (getConnectionStep st key p).2 key q).2 =
      (getConnectionStep st key p).2 ∧
    startsAttempt (getConnectionStep st key p).1 = true ∧
    startsAttempt (getConnectionStep (getConnectionStep st key p).2 key q).1 = false ∧
    awaitedPromise (getConnectionStep st key p).1 = some p ∧
    awaitedPromise (getConnectionStep (getConnectionStep st key p).2 key q).1 = some p ∧
    mapGet (settleSuccess (getConnectionStep st key p).2 key c).connections key = some c ∧
    mapGet (settleSuccess (getConnectionStep st key p).2 key c).promises key = none := by
  have hstep : ∀ (st' : PoolState), st'.connections = st.connections →
      ∀ fresh, getConnectionStep st' key fresh = getConnectionNoReady st' key fresh := by
    intro st' hconn fresh
    unfold getConnectionStep
    rcases hmg : mapGet st'.connections key with _ | d
    · rfl
    · show (if d.loggedIn = true then (GetConnOutcome.ready d, st')
        else getConnectionNoReady st' key fresh) = _
      rw [hnoReady d (hconn ▸ hmg)]
      simp
  have h1 : getConnectionStep st key p =
      (.startNew p, { st with promises := mapSet st.promises key p }) := by
    rw [hstep st rfl p]
    unfold getConnectionNoReady
    rw [hnoInflight]
  have h2 : getConnectionStep (getConnectionStep st key p).2 key q =
      (.awaitExisting p, (getConnectionStep st key p).2) := by
    rw [h1, hstep { st with promises := mapSet st.promises key p } rfl q]
    unfold getConnectionNoReady
    rw [show ({ st with promises := mapSet st.promises key p } : PoolState).promises =
      mapSet st.promises key p from rfl, mapGet_mapSet_self]
  refine ⟨by rw [h1], by rw [h2], by rw [h2], by rw [h1]; rfl, by rw [h2]; rfl,
    by rw [h1]; rfl, by rw [h2]; rfl, ?_, ?_⟩
  · rw [h1]
    exact mapGet_mapSet_self _ _ _
  · rw [h1]
    exact mapGet_mapDelete_self _ _

theorem getConnection_coalesces_witness :
    (getConnectionStep poolInit "k" 0).1 = .startNew 0 ∧
    (getConnectionStep (getConnectionStep poolInit "k" 0).2 "k" 1).1 = .awaitExisting 0 ∧
    (getConnectionStep (getConnectionStep poolInit "k" 0).2 "k" 1).2 =
      (getConnectionStep poolInit "k" 0).2 ∧
    startsAttempt (getConnectionStep poolInit "k" 0).1 = true ∧
    startsAttempt (getConnectionStep (getConnectionStep poolInit "k" 0).2 "k" 1).1 = false ∧
    awaitedPromise (getConnectionStep poolInit "k" 0).1 = some 0 ∧
    awaitedPromise (getConnectionStep (getConnectionStep poolInit "k" 0).2 "k" 1).1 = some 0 ∧
    mapGet (settleSuccess (getConnectionStep poolInit "k" 0).2 "k" ⟨7, true⟩).connections "k" =
      some ⟨7, true⟩ ∧
    mapGet (settleSuccess (getConnectionStep poolInit "k" 0).2 "k" ⟨7, true⟩).promises "k" =
      none :=
  getConnection_coalesces poolInit "k" 0 1 ⟨7, true⟩
    (fun d hd => by simp [poolInit, mapGet] at hd) rfl

/-- A reachable pool state in which a pooled session and an in-flight
creation coexist for the key `"k"`: a session is created and published, a
statement starts executing on it (taking the `tedious` connection out of the
`LOGGED_IN` state), and a further `getConnection` then fails the health check
and starts a second creation while the first session is still pooled. -/
def exclusivityBadState : PoolState := ⟨[("k", ⟨1, false⟩)], [("k", 1)]⟩

/-- C6 counterexample: the mutual-exclusivity half of the claimed invariant is
false — `exclusivityBadState` is reachable, yet it has both a `PooledSession`
and an `InFlightCreation` for the same key. -/
theorem pool_exclusivity_counterexample :
    Reachable exclusivityBadState ∧
    (mapGet exclusivityBadState.connections "k").isSome = true ∧
    (mapGet exclusivityBadState.promises "k").isSome = true := by
  refine ⟨?_, by decide, by decide⟩
  have h1 : Reachable ⟨[], [("k", 0)]⟩ :=
    Reachable.step poolInit (.getConn "k" 0) Reachable.init (by decide)
  have h2 : Reachable ⟨[("k", ⟨1, true⟩)], []⟩ :=
    Reachable.step ⟨[], [("k", 0)]⟩ (.settleOk "k" ⟨1, true⟩) h1 (by decide)
  have h3 : Reachable ⟨[("k", ⟨1, false⟩)], []⟩ :=
    Reachable.step ⟨[("k", ⟨1, true⟩)], []⟩ (.execStart "k") h2 (by decide)
  exact Reachable.step ⟨[("k", ⟨1, false⟩)], []⟩ (.getConn "k" 1) h3 (by decide)

/-- Every pool event preserves per-key uniqueness of both maps. -/
theorem applyEvent_preserves_keysNodup (st : PoolState) (e : PoolEvent)
    (hc : KeysNodup st.connections) (hp : KeysNodup st.promises) :
    KeysNodup (applyEvent st e).connections ∧ KeysNodup (applyEvent st e).promises := by
  cases e with
  | getConn key fresh =>
    show KeysNodup (getConnectionStep st key fresh).2.connections ∧
      KeysNodup (getConnectionStep st key fresh).2.promises
    unfold getConnectionStep getConnectionNoReady
    split
    · split
      · exact ⟨hc, hp⟩
      · split
        · exact ⟨hc, hp⟩
        · exact ⟨hc, keysNodup_mapSet _ _ _ hp⟩
    · split
      · exact ⟨hc, hp⟩
      · exact ⟨hc, keysNodup_mapSet _ _ _ hp⟩
  | settleOk key c =>
    exact ⟨keysNodup_mapSet _ _ _ hc, keysNodup_mapDelete _ _ hp⟩
  | settleErr key => exact ⟨hc, keysNodup_mapDelete _ _ hp⟩
  | connError key => exact ⟨keysNodup_mapDelete _ _ hc, hp⟩
  | connEnd key => exact ⟨keysNodup_mapDelete _ _ hc, hp⟩
  | closeConn key => exact ⟨keysNodup_mapDelete _ _ hc, hp⟩
  | closeAll => exact ⟨keysNodup_nil, hp⟩
  | execStart key =>
    exact ⟨keysNodup_updateValues _ _
      (fun p => by by_cases hk : (p.1 == key) = true <;> simp [hk]) hc, hp⟩
  | execEnd key =>
    exact ⟨keysNodup_updateValues _ _
      (fun p => by by_cases hk : (p.1 == key) = true <;> simp [hk]) hc, hp⟩

/-- C6 amended: in every reachable state the pool holds at most one
`PooledSession` per key and at most one `InFlightCreation` per key; the two
are, however, not mutually exclusive (see the counterexample): a pooled
session that is not in the ready state may coexist with an in-flight
creation for the same key. -/
theorem pool_per_key_uniqueness (st : PoolState) (h : Reachable st) :
    KeysNodup st.connections ∧ KeysNodup st.promises := by
  induction h with
  | init => exact ⟨keysNodup_nil, keysNodup_nil⟩
  | step st e h henabled ih => exact applyEvent_preserves_keysNodup st e ih.1 ih.2

theorem pool_per_key_uniqueness_witness :
    KeysNodup (PoolState.mk [] [("k", 0)]).connections ∧
    KeysNodup (PoolState.mk [] [("k", 0)]).promises :=
  pool_per_key_uniqueness ⟨[], [("k", 0)]⟩
    (Reachable.step poolInit (.getConn "k" 0) Reachable.init (by decide))

/-! ## Query result cache (`ConnectionPool.executeQuery`, lines 145–192)

The cache key is `` `${query}-${JSON.stringify(parameters || {})}` `` and the
store is a `node-cache` with `stdTTL` seconds (default 300): `set` records an
absolute expiry `insertedAt + ttl`, and `get` returns the value only while it
has not expired. A row is a column-name/value record. -/

/-- A query parameter value, as classified by `getParameterType`
(lines 194–202): strings, numbers (integral vs not), booleans, dates;
anything else is bound as text. Numbers are modelled by integers — only the
serialized form matters for the cache key. -/
inductive PValue where
  | str (s : String)
  | num (n : Int)
  | bool (b : Bool)
deriving DecidableEq, Repr

/-- `JSON.stringify` of a parameter value (quoted string, number literal,
`true`/`false`). -/
def pvalueToJson : PValue → String
  | .str s => "\"" ++ s ++ "\""
  | .num n => toString n
  | .bool b => if b then "true" else "false"

/-- `JSON.stringify(parameters || {})`: a deterministic serialization of the
parameter record in property order. -/
def serializeParams (ps : List (String × PValue)) : String :=
  "\x7b" ++
    String.intercalate ","
      (ps.map (fun p => "\"" ++ p.1 ++ "\":" ++ pvalueToJson p.2)) ++
  "\x7d"

/-- Line 151: the statement fingerprint. -/
def cacheFingerprint (query : String) (parameters : Option (List (String × PValue))) :
    String :=
  query ++ "-" ++ serializeParams (parameters.getD [])

abbrev Row := List (String × String)

structure CacheEntry where
  rows : List Row
  expiresAt : Nat
deriving DecidableEq, Repr

/-- The `node-cache` instance: TTL seconds plus the keyed store. -/
structure QueryCache where
  ttl : Nat
  entries : List (String × CacheEntry)
deriving DecidableEq, Repr

def defaultCacheTTL : Nat := 300

def emptyCache : QueryCache := ⟨defaultCacheTTL, []⟩

/-- `cache.get(key)` at time `now`: a hit only while the entry has not
expired. -/
def cacheGet (c : QueryCache) (k : String) (now : Nat) : Option (List Row) :=
  match mapGet c.entries k with
  | some e => if now ≤ e.expiresAt then some e.rows else none
  | none => none

/-- `cache.set(key, results)` at time `now`. -/
def cacheSet (c : QueryCache) (k : String) (rows : List Row) (now : Nat) :
    QueryCache :=
  { c with entries := mapSet c.entries k ⟨rows, now + c.ttl⟩ }

/-- What the session does with the submitted statement: the callback of the
`Request` either reports success (after the accumulated `row` events) or an
error. -/
inductive ExecOutcome where
  | ok (rows : List Row)
  | err (msg : String)
deriving DecidableEq, Repr

/-- `executeQuery` (lines 145–192), with the session's behaviour supplied as
an oracle. Returns the rows or the error, the cache afterwards, and whether
the statement was submitted to the session (`connection.execSql`). -/
def executeQuery (cache : QueryCache) (query : String)
    (parameters : Option (List (String × PValue))) (now : Nat)
    (exec : ExecOutcome) :
    Except String (List Row) × QueryCache × Bool :=
  match cacheGet cache (cacheFingerprint query parameters) now with
  | some rows => (.ok rows, cache, false)
  | none =>
    match exec with
    | .ok rows => (.ok rows, cacheSet cache (cacheFingerprint query parameters) rows now, true)
    | .err msg => (.error msg, cache, true)

/-- A freshly stored entry is a cache hit for any time up to its expiry. -/
theorem cacheGet_cacheSet_self (c : QueryCache) (k : String) (rows : List Row)
    (now now₂ : Nat) (h : now₂ ≤ now + c.ttl) :
    cacheGet (cacheSet c k rows now) k now₂ = some rows := by
  simp only [cacheGet, cacheSet, mapGet_mapSet_self]
  rw [if_pos h]

/-- C4: a successful `executeQuery` stores its rows under the fingerprint of
statement text plus serialized parameters; a second call with identical
statement and parameters within the TTL window returns exactly those rows
without submitting anything to the session and leaves the cache unchanged;
and a failed execution stores nothing. -/
theorem executeQuery_cache_policy (cache : QueryCache) (query : String)
    (parameters : Option (List (String × PValue))) (now now₂ : Nat)
    (rows : List Row) (msg : String)
    (hmiss : cacheGet cache (cacheFingerprint query parameters) now = none)
    (hwindow : now ≤ now₂ ∧ now₂ ≤ now + cache.ttl) :
    executeQuery cache query parameters now (.ok rows) =
      (.ok rows, cacheSet cache (cacheFingerprint query parameters) rows now, true) ∧
    mapGet (cacheSet cache (cacheFingerprint query parameters) rows now).entries
      (cacheFingerprint query parameters) = some ⟨rows, now + cache.ttl⟩ ∧
    executeQuery (cacheSet cache (cacheFingerprint query parameters) rows now)
      query parameters now₂ (.ok rows) =
      (.ok rows, cacheSet cache (cacheFingerprint query parameters) rows now, false) ∧
    executeQuery (cacheSet cache (cacheFingerprint query parameters) rows now)
      query parameters now₂ (.err msg) =
      (.ok rows, cacheSet cache (cacheFingerprint query parameters) rows now, false) ∧
    executeQuery cache query parameters now (.err msg) =
      (.error msg, cache, true) := by
  have hhit := cacheGet_cacheSet_self cache (cacheFingerprint query parameters)
    rows now now₂ hwindow.2
  refine ⟨?_, mapGet_mapSet_self _ _ _, ?_, ?_, ?_⟩
  · unfold executeQuery
    rw [hmiss]
  · unfold executeQuery
    rw [hhit]
  · unfold executeQuery
    rw [hhit]
  · unfold executeQuery
    rw [hmiss]

theorem executeQuery_cache_policy_witness :
    executeQuery emptyCache "SELECT 1" none 1000 (.ok [[("c", "1")]]) =
      (.ok [[("c", "1")]],
        cacheSet emptyCache (cacheFingerprint "SELECT 1" none) [[("c", "1")]] 1000, true) ∧
    mapGet (cacheSet emptyCache (cacheFingerprint "SELECT 1" none) [[("c", "1")]] 1000).entries
      (cacheFingerprint "SELECT 1" none) = some ⟨[[("c", "1")]], 1300⟩ ∧
    executeQuery (cacheSet emptyCache (cacheFingerprint "SELECT 1" none) [[("c", "1")]] 1000)
      "SELECT 1" none 1200 (.ok [[("c", "1")]]) =
      (.ok [[("c", "1")]],
        cacheSet emptyCache (cacheFingerprint "SELECT 1" none) [[("c", "1")]] 1000, false) ∧
    executeQuery (cacheSet emptyCache (cacheFingerprint "SELECT 1" none) [[("c", "1")]] 1000)
      "SELECT 1" none 1200 (.err "boom") =
      (.ok [[("c", "1")]],
        cacheSet emptyCache (cacheFingerprint "SELECT 1" none) [[("c", "1")]] 1000, false) ∧
    executeQuery emptyCache "SELECT 1" none 1000 (.err "boom") =
      (.error "boom", emptyCache, true) :=
  executeQuery_cache_policy emptyCache "SELECT 1" none 1000 1200 [[("c", "1")]] "boom"
    rfl (by decide)

/-! ## Token cache (`AzureAuthService`, src/services/azure-auth.service.ts)

`getAccessToken` consults the cached `AccessToken`; the credential's
behaviour on an acquisition attempt is an oracle (`@azure/identity` network
call): it resolves with a token, resolves with `null`/`undefined`, or
rejects. Timestamps are epoch milliseconds. -/

structure AccessToken where
  token : String
  expiresOnTimestamp : Option Nat
deriving DecidableEq, Repr

structure AuthState where
  cachedToken : Option AccessToken
deriving DecidableEq, Repr

/-- `tokenExpirationBuffer = 5 * 60 * 1000` (line 10). -/
def tokenExpirationBuffer : Nat := 5 * 60 * 1000

/-- `isTokenValid` (lines 115–125): a token with no (or zero, equally falsy
and equally invalid) expiry timestamp is never valid; otherwise valid iff
strictly more than the buffer remains until expiry. -/
def isTokenValid (t : AccessToken) (now : Nat) : Bool :=
  match t.expiresOnTimestamp with
  | none => false
  | some exp => decide ((tokenExpirationBuffer : Int) < (exp : Int) - (now : Int))

/-- How `this.credential.getToken(...)` behaves on this call. -/
inductive AcquireOutcome where
  | token (t : AccessToken)
  | nullToken
  | threw (msg : String)
deriving DecidableEq, Repr

inductive AuthError where
  | authenticationError (message : String)
deriving DecidableEq, Repr

/-- The acquisition arm of `getAccessToken` (lines 77–109). A `null` token
response raises `AuthenticationError('Failed to acquire access token')`
inside the `try`, which the function's own `catch` then clears the cache for
and re-wraps — hence the doubled message. A rejection is wrapped with its
cause's message. Either way `cachedToken` ends up `null`. -/
def getAccessTokenAcquire (acquire : AcquireOutcome) :
    Except AuthError String × AuthState × Bool :=
  match acquire with
  | .token t => (.ok t.token, ⟨some t⟩, true)
  | .nullToken =>
    (.error (.authenticationError
        ("Failed to acquire access token: " ++ "Failed to acquire access token")),
      ⟨none⟩, true)
  | .threw msg =>
    (.error (.authenticationError ("Failed to acquire access token: " ++ msg)),
      ⟨none⟩, true)

/-- `getAccessToken` (lines 69–110): serve a valid cached token without
acquisition, else acquire. The final `Bool` reports whether an underlying
acquisition was performed. -/
def getAccessToken (st : AuthState) (now : Nat) (acquire : AcquireOutcome) :
    Except AuthError String × AuthState × Bool :=
  match st.cachedToken with
  | some t =>
    if isTokenValid t now then (.ok t.token, st, false)
    else getAccessTokenAcquire acquire
  | none => getAccessTokenAcquire acquire

/-- `refreshToken` (lines 130–134): drop the cache, then `getAccessToken`. -/
def refreshToken (now : Nat) (acquire : AcquireOutcome) :
    Except AuthError String × AuthState × Bool :=
  getAccessToken ⟨none⟩ now acquire

/-- Whether `getAccessToken` will reach the acquisition arm. -/
def willAcquire (st : AuthState) (now : Nat) : Bool :=
  match st.cachedToken with
  | some t => !isTokenValid t now
  | none => true

theorem getAccessTokenAcquire_acquires (acquire : AcquireOutcome) :
    (getAccessTokenAcquire acquire).2.2 = true := by
  cases acquire <;> rfl

theorem getAccessToken_none (now : Nat) (acquire : AcquireOutcome) :
    getAccessToken ⟨none⟩ now acquire = getAccessTokenAcquire acquire := rfl

theorem getAccessToken_some (t : AccessToken) (now : Nat) (acquire : AcquireOutcome) :
    getAccessToken ⟨some t⟩ now acquire =
      if isTokenValid t now then (.ok t.token, ⟨some t⟩, false)
      else getAccessTokenAcquire acquire := rfl

theorem getAccessToken_acquires_iff (st : AuthState) (now : Nat)
    (acquire : AcquireOutcome) :
    (getAccessToken st now acquire).2.2 = willAcquire st now := by
  obtain ⟨ct⟩ := st
  rcases ct with _ | t
  · rw [getAccessToken_none, getAccessTokenAcquire_acquires acquire]
    rfl
  · rw [getAccessToken_some]
    by_cases h : isTokenValid t now = true
    · rw [if_pos h]
      show false = willAcquire ⟨some t⟩ now
      show false = !isTokenValid t now
      rw [h]
      rfl
    · rw [if_neg h, getAccessTokenAcquire_acquires acquire]
      show true = !isTokenValid t now
      rw [Bool.eq_false_iff.mpr h]
      rfl

/-- C3: `getAccessToken` serves from cache (no acquisition) iff a cached
token exists whose expiry lies more than the 5-minute buffer in the future;
a cached token served is returned verbatim; a cached token with no expiry
timestamp is never served from cache; two calls within the validity window
perform exactly one acquisition; and a call after forced expiry
(`refreshToken`) always performs an acquisition. -/
theorem getAccessToken_cache_policy :
    (∀ (st : AuthState) (now : Nat) (acquire : AcquireOutcome),
      (getAccessToken st now acquire).2.2 = false ↔
        ∃ t exp, st.cachedToken = some t ∧ t.expiresOnTimestamp = some exp ∧
          (tokenExpirationBuffer : Int) < (exp : Int) - (now : Int)) ∧
    (∀ (st : AuthState) (now : Nat) (acquire : AcquireOutcome) (t : AccessToken),
      st.cachedToken = some t → (getAccessToken st now acquire).2.2 = false →
      (getAccessToken st now acquire).1 = .ok t.token) ∧
    (∀ (st : AuthState) (now : Nat) (acquire : AcquireOutcome) (t : AccessToken),
      st.cachedToken = some t → t.expiresOnTimestamp = none →
      (getAccessToken st now acquire).2.2 = true) ∧
    (∀ (now₁ now₂ : Nat) (t : AccessToken) (exp : Nat) (acquire₂ : AcquireOutcome),
      t.expiresOnTimestamp = some exp →
      (tokenExpirationBuffer : Int) < (exp : Int) - (now₂ : Int) →
      (getAccessToken ⟨none⟩ now₁ (.token t)).2.2 = true ∧
      (getAccessToken ⟨none⟩ now₁ (.token t)).1 = .ok t.token ∧
      (getAccessToken (getAccessToken ⟨none⟩ now₁ (.token t)).2.1 now₂ acquire₂).2.2 =
        false ∧
      (getAccessToken (getAccessToken ⟨none⟩ now₁ (.token t)).2.1 now₂ acquire₂).1 =
        .ok t.token) ∧
    (∀ (now : Nat) (acquire : AcquireOutcome), (refreshToken now acquire).2.2 = true) := by
  have hvalid : ∀ (t : AccessToken) (now : Nat), isTokenValid t now = true ↔
      ∃ exp, t.expiresOnTimestamp = some exp ∧
        (tokenExpirationBuffer : Int) < (exp : Int) - (now : Int) := by
    intro t now
    unfold isTokenValid
    rcases he : t.expiresOnTimestamp with _ | exp
    · simp
    · simp
  refine ⟨?_, ?_, ?_, ?_, ?_⟩
  · intro st now acquire
    rw [getAccessToken_acquires_iff]
    obtain ⟨ct⟩ := st
    rcases ct with _ | t
    · show true = false ↔ _
      simp
    · show (!isTokenValid t now) = false ↔ _
      simp only [Bool.not_eq_false']
      rw [hvalid t now]
      constructor
      · rintro ⟨exp, hexp, hgt⟩
        exact ⟨t, exp, rfl, hexp, hgt⟩
      · rintro ⟨t', exp, ht', hexp, hgt⟩
        cases Option.some.inj ht'
        exact ⟨exp, hexp, hgt⟩
  · intro st now acquire t hc hnoacq
    obtain ⟨ct⟩ := st
    have hct : ct = some t := hc
    subst hct
    rw [getAccessToken_some] at hnoacq ⊢
    by_cases h : isTokenValid t now = true
    · rw [if_pos h]
    · rw [if_neg h, getAccessTokenAcquire_acquires acquire] at hnoacq
      exact absurd hnoacq (by simp)
  · intro st now acquire t hc hnone
    obtain ⟨ct⟩ := st
    have hct : ct = some t := hc
    subst hct
    rw [getAccessToken_acquires_iff]
    show (!isTokenValid t now) = true
    have hf : isTokenValid t now = false := by
      unfold isTokenValid
      rw [hnone]
    rw [hf]
    rfl
  · intro now₁ now₂ t exp acquire₂ hexp hgt
    have hval : isTokenValid t now₂ = true := by
      unfold isTokenValid
      rw [hexp]
      exact decide_eq_true hgt
    have h1 : getAccessToken ⟨none⟩ now₁ (.token t) =
        (.ok t.token, ⟨some t⟩, true) := rfl
    refine ⟨by rw [h1], by rw [h1], ?_, ?_⟩
    · rw [h1]
      show (getAccessToken ⟨some t⟩ now₂ acquire₂).2.2 = false
      rw [getAccessToken_some, if_pos hval]
    · rw [h1]
      show (getAccessToken ⟨some t⟩ now₂ acquire₂).1 = .ok t.token
      rw [getAccessToken_some, if_pos hval]
  · intro now acquire
    exact getAccessTokenAcquire_acquires acquire

theorem getAccessToken_cache_policy_witness :
    (getAccessToken ⟨none⟩ 0 (.token ⟨"tok", some 1000000⟩)).2.2 = true ∧
    (getAccessToken ⟨none⟩ 0 (.token ⟨"tok", some 1000000⟩)).1 = .ok "tok" ∧
    (getAccessToken (getAccessToken ⟨none⟩ 0
      (.token ⟨"tok", some 1000000⟩)).2.1 100 .nullToken).2.2 = false ∧
    (getAccessToken (getAccessToken ⟨none⟩ 0
      (.token ⟨"tok", some 1000000⟩)).2.1 100 .nullToken).1 = .ok "tok" :=
  getAccessToken_cache_policy.2.2.2.1 0 100 ⟨"tok", some 1000000⟩ 1000000
    .nullToken rfl (by decide)

/-- C8: whenever `getAccessToken` reaches the credential and the credential
fails to produce a token — it rejects, or resolves with no token — the cached
token is cleared and an `AuthenticationError` wrapping the underlying cause
is raised; no token is left in the cache. -/
theorem getAccessToken_failure_clears_cache (st : AuthState) (now : Nat)
    (msg : String) (h : willAcquire st now = true) :
    (getAccessToken st now (.threw msg)).1 =
      .error (.authenticationError ("Failed to acquire access token: " ++ msg)) ∧
    (getAccessToken st now (.threw msg)).2.1.cachedToken = none ∧
    (getAccessToken st now .nullToken).1 =
      .error (.authenticationError
        ("Failed to acquire access token: " ++ "Failed to acquire access token")) ∧
    (getAccessToken st now .nullToken).2.1.cachedToken = none := by
  have hred : ∀ acquire, getAccessToken st now acquire = getAccessTokenAcquire acquire := by
    intro acquire
    obtain ⟨ct⟩ := st
    rcases ct with _ | t
    · rfl
    · have hb : (!isTokenValid t now) = true := h
      have hf : isTokenValid t now = false := by simpa using hb
      rw [getAccessToken_some, if_neg]
      simp [hf]
  rw [hred, hred]
  exact ⟨rfl, rfl, rfl, rfl⟩

theorem getAccessToken_failure_clears_cache_witness :
    (getAccessToken ⟨some ⟨"stale", none⟩⟩ 0 (.threw "ECONNREFUSED")).1 =
      .error (.authenticationError ("Failed to acquire access token: " ++ "ECONNREFUSED")) ∧
    (getAccessToken ⟨some ⟨"stale", none⟩⟩ 0 (.threw "ECONNREFUSED")).2.1.cachedToken = none ∧
    (getAccessToken ⟨some ⟨"stale", none⟩⟩ 0 .nullToken).1 =
      .error (.authenticationError
        ("Failed to acquire access token: " ++ "Failed to acquire access token")) ∧
    (getAccessToken ⟨some ⟨"stale", none⟩⟩ 0 .nullToken).2.1.cachedToken = none :=
  getAccessToken_failure_clears_cache ⟨some ⟨"stale", none⟩⟩ 0 "ECONNREFUSED" rfl

/-! ## Tenant registry (`TenantManager`, src/config/config.ts 561–746) -/

inductive PoolType where
  | dedicated
  | serverless
deriving DecidableEq, Repr

structure SqlPool where
  name : String
  type : PoolType
  connectionString : String
deriving DecidableEq, Repr

inductive CredDeclType where
  | servicePrincipal
  | managedIdentity
  | defaultCred
deriving DecidableEq, Repr

/-- A tenant's `credentials` declaration. `Option` stands for the optional
(possibly absent or empty, equally falsy) fields. -/
structure CredDecl where
  type : CredDeclType
  tenantId : Option String
  clientId : Option String
  clientSecret : Option String
deriving DecidableEq, Repr

structure TenantConfig where
  name : String
  subscriptionId : String
  resourceGroup : String
  workspaceName : String
  sqlPools : List SqlPool
  credentials : CredDecl
  region : Option String
  tags : List (String × String)
deriving DecidableEq, Repr

/-- A credential object built by `addTenant` (`@azure/identity`). -/
inductive Credential where
  | clientSecret (tenantId clientId secret : String)
  | managedIdentity (clientId : Option String)
  | defaultAzure
deriving DecidableEq, Repr

/-- The three `TenantManager` fields: `tenants`, `credentials`,
`defaultTenant` (line 582–584). In the `service_principal` arm `credential`
stays `undefined` when any of the three fields is missing (lines 661–669),
hence the `Option Credential` values. -/
structure TenantManagerState where
  tenants : List (String × TenantConfig)
  credentials : List (String × Option Credential)
  defaultTenant : Option String
deriving DecidableEq, Repr

/-- The credential-construction `switch` of `addTenant` (lines 658–681). -/
def createCredential (c : CredDecl) : Option Credential :=
  match c.type with
  | .servicePrincipal =>
    match c.tenantId, c.clientId, c.clientSecret with
    | some tid, some cid, some sec => some (.clientSecret tid cid sec)
    | _, _, _ => none
  | .managedIdentity => some (.managedIdentity c.clientId)
  | .defaultCred => some .defaultAzure

/-- `addTenant` (lines 655–685). -/
def addTenant (st : TenantManagerState) (name : String) (config : TenantConfig) :
    TenantManagerState :=
  { st with
    tenants := mapSet st.tenants name config,
    credentials := mapSet st.credentials name (createCredential config.credentials) }

/-- `getTenant` (lines 687–690): `name || this.defaultTenant || 'default'`,
then a map lookup. -/
def getTenant (st : TenantManagerState) (name : Option String) :
    Option TenantConfig :=
  mapGet st.tenants (name.getD (st.defaultTenant.getD "default"))

/-- `getConnectionString` (lines 697–703): resolve the tenant, then take the
first pool whose `type` matches. -/
def getConnectionString (st : TenantManagerState) (tenantName : Option String)
    (poolType : PoolType) : Option String :=
  match getTenant st tenantName with
  | none => none
  | some tenant =>
    (tenant.sqlPools.find? (fun p => p.type == poolType)).map (·.connectionString)

/-- `removeTenant` (lines 718–727). -/
def removeTenant (st : TenantManagerState) (name : String) : TenantManagerState :=
  { tenants := mapDelete st.tenants name,
    credentials := mapDelete st.credentials name,
    defaultTenant := if st.defaultTenant = some name then none else st.defaultTenant }

theorem find?_filter_of_imp {α : Type} (l : List α) (p q : α → Bool)
    (h : ∀ x, p x = true → q x = true) :
    (l.filter q).find? p = l.find? p := by
  induction l with
  | nil => rfl
  | cons a l ih =>
    by_cases hpa : p a = true
    · rw [List.filter_cons_of_pos (h a hpa), List.find?_cons_of_pos _ hpa,
        List.find?_cons_of_pos _ hpa]
    · by_cases hqa : q a = true
      · rw [List.filter_cons_of_pos hqa, List.find?_cons_of_neg _ hpa,
          List.find?_cons_of_neg _ hpa, ih]
      · rw [List.filter_cons_of_neg hqa, List.find?_cons_of_neg _ hpa, ih]

theorem mapGet_mapDelete_ne {α : Type} (m : List (String × α)) (k k' : String)
    (h : k' ≠ k) : mapGet (mapDelete m k) k' = mapGet m k' := by
  unfold mapGet mapDelete
  rw [find?_filter_of_imp]
  intro x hx
  have hx' : x.1 = k' := by simpa using hx
  simp [hx', h]

/-- The first pool in list order whose kind matches is the one `find?`
returns. -/
theorem find?_pool_first (pools : List SqlPool) (k : PoolType) :
    ∀ (i : Nat) (p : SqlPool), pools.get? i = some p → p.type = k →
      (∀ j, j < i → ∀ q, pools.get? j = some q → q.type ≠ k) →
      pools.find? (fun q => q.type == k) = some p := by
  induction pools with
  | nil => intro i p hi; rw [List.get?_nil] at hi; exact absurd hi (by simp)
  | cons a l ih =>
    intro i p hi hk hbefore
    cases i with
    | zero =>
      rw [List.get?_cons_zero] at hi
      cases Option.some.inj hi
      exact List.find?_cons_of_pos _ (by simp [hk])
    | succ n =>
      rw [List.get?_cons_succ] at hi
      have ha : a.type ≠ k :=
        hbefore 0 (Nat.succ_pos n) a List.get?_cons_zero
      rw [List.find?_cons_of_neg _ (by simp [ha])]
      exact ih n p hi hk (fun j hj q hq =>
        hbefore (j + 1) (Nat.succ_lt_succ hj) q (by rwa [List.get?_cons_succ]))

/-- C7: with the tenant name omitted, the lookup resolves to the explicitly
set default tenant when one is set, else to the tenant named `"default"`;
the result is absent when the resolved tenant is not registered; for a
resolved tenant a linear scan returns the connection descriptor of the first
pool whose kind matches, and is absent when no pool of that kind exists. -/
theorem getConnectionString_resolution (st : TenantManagerState) (k : PoolType) :
    (∀ d, st.defaultTenant = some d →
      getConnectionString st none k = getConnectionString st (some d) k) ∧
    (st.defaultTenant = none →
      getConnectionString st none k = getConnectionString st (some "default") k) ∧
    (∀ name, getTenant st name = none → getConnectionString st name k = none) ∧
    (∀ name t, getTenant st name = some t →
      (∀ p ∈ t.sqlPools, p.type ≠ k) → getConnectionString st name k = none) ∧
    (∀ name t i p, getTenant st name = some t →
      t.sqlPools.get? i = some p → p.type = k →
      (∀ j, j < i → ∀ q, t.sqlPools.get? j = some q → q.type ≠ k) →
      getConnectionString st name k = some p.connectionString) := by
  refine ⟨?_, ?_, ?_, ?_, ?_⟩
  · intro d hd
    unfold getConnectionString getTenant
    rw [hd]
    rfl
  · intro hd
    unfold getConnectionString getTenant
    rw [hd]
    rfl
  · intro name hnone
    unfold getConnectionString
    rw [hnone]
  · intro name t ht hall
    unfold getConnectionString
    rw [ht]
    show Option.map (fun x => x.connectionString)
      (List.find? (fun p => p.type == k) t.sqlPools) = none
    rw [List.find?_eq_none.mpr (fun q hq => by simpa using hall q hq)]
    rfl
  · intro name t i p ht hi hk hbefore
    unfold getConnectionString
    rw [ht]
    show Option.map (fun x => x.connectionString)
      (List.find? (fun q => q.type == k) t.sqlPools) = some p.connectionString
    rw [find?_pool_first t.sqlPools k i p hi hk hbefore]
    rfl

/-- A two-tenant registry for concrete evaluation. -/
def demoTenant (nm : String) (pools : List SqlPool) : TenantConfig :=
  ⟨nm, "sub", "rg", nm ++ "-ws", pools, ⟨.defaultCred, none, none, none⟩, none, []⟩

def demoRegistry : TenantManagerState :=
  ⟨[("default", demoTenant "default"
      [⟨"dp", .dedicated, "CSD"⟩, ⟨"sp", .serverless, "CSS"⟩]),
    ("acme", demoTenant "acme" [⟨"dp2", .dedicated, "CSD2"⟩])],
   [("default", some .defaultAzure), ("acme", some .defaultAzure)],
   none⟩

theorem getConnectionString_resolution_witness :
    getConnectionString demoRegistry none .serverless = some "CSS" :=
  (getConnectionString_resolution demoRegistry .serverless).2.2.2.2 none
    (demoTenant "default" [⟨"dp", .dedicated, "CSD"⟩, ⟨"sp", .serverless, "CSS"⟩])
    1 ⟨"sp", .serverless, "CSS"⟩ rfl rfl rfl
    (fun j hj q hq => by
      interval_cases j
      have hq' : some (⟨"dp", PoolType.dedicated, "CSD"⟩ : SqlPool) = some q := hq
      cases Option.some.inj hq'
      decide)

/-- C10: `removeTenant n` removes both the tenant's configuration entry and
its cached credential, resets the default tenant to unset iff it was `n`,
and leaves every other tenant's configuration and credential entries, and an
unrelated default, unchanged. -/
theorem removeTenant_frame (st : TenantManagerState) (n : String) :
    mapGet (removeTenant st n).tenants n = none ∧
    mapGet (removeTenant st n).credentials n = none ∧
    (st.defaultTenant = some n → (removeTenant st n).defaultTenant = none) ∧
    (st.defaultTenant ≠ some n → (removeTenant st n).defaultTenant = st.defaultTenant) ∧
    (∀ m, m ≠ n → mapGet (removeTenant st n).tenants m = mapGet st.tenants m) ∧
    (∀ m, m ≠ n → mapGet (removeTenant st n).credentials m = mapGet st.credentials m) := by
  refine ⟨mapGet_mapDelete_self _ _, mapGet_mapDelete_self _ _, ?_, ?_, ?_, ?_⟩
  · intro hd
    unfold removeTenant
    rw [if_pos hd]
  · intro hd
    unfold removeTenant
    rw [if_neg hd]
  · intro m hm
    exact mapGet_mapDelete_ne _ _ _ hm
  · intro m hm
    exact mapGet_mapDelete_ne _ _ _ hm

theorem removeTenant_frame_witness :
    mapGet (removeTenant demoRegistry "acme").tenants "acme" = none ∧
    mapGet (removeTenant demoRegistry "acme").credentials "acme" = none ∧
    (removeTenant demoRegistry "acme").defaultTenant = demoRegistry.defaultTenant ∧
    mapGet (removeTenant demoRegistry "acme").tenants "default" =
      mapGet demoRegistry.tenants "default" ∧
    mapGet (removeTenant demoRegistry "acme").credentials "default" =
      mapGet demoRegistry.credentials "default" :=
  ⟨(removeTenant_frame demoRegistry "acme").1,
   (removeTenant_frame demoRegistry "acme").2.1,
   (removeTenant_frame demoRegistry "acme").2.2.2.1 (by decide),
   (removeTenant_frame demoRegistry "acme").2.2.2.2.1 "default" (by decide),
   (removeTenant_frame demoRegistry "acme").2.2.2.2.2 "default" (by decide)⟩

/-! ## SQL execution path (`SynapseOperations.executeSqlQuery`,
src/operations/synapse-operations.ts 11–81)

The handler resolves a connection string for the tenant and pool kind; when
none is configured it throws `No ${poolType} pool configured for tenant:
${tenant || 'default'}` before ever touching the pool, and its `catch`
converts the error into the structured failure payload (lines 59–80) with a
hint from message-substring classification (`getErrorHint`, lines 370–390). -/

def listIsPrefixOf : List Char → List Char → Bool
  | [], _ => true
  | _ :: _, [] => false
  | a :: as, b :: bs => a == b && listIsPrefixOf as bs

def listIsInfixOf (pat : List Char) : List Char → Bool
  | [] => pat.isEmpty
  | b :: bs => listIsPrefixOf pat (b :: bs) || listIsInfixOf pat bs

/-- `errorMessage.toLowerCase().includes(pat)` for an already-lowercase
pattern. -/
def msgIncludes (msg pat : String) : Bool :=
  listIsInfixOf pat.toList (msg.toList.map Char.toLower)

/-- `getErrorHint` (lines 370–390). -/
def getErrorHint (msg : String) : String :=
  if msgIncludes msg "login failed" then
    "Check your authentication credentials and ensure the user has access to the database"
  else if msgIncludes msg "cannot open database" then
    "Database does not exist or user lacks permission to access it"
  else if msgIncludes msg "syntax" then
    "SQL syntax error - review your query for typos or invalid SQL constructs"
  else if msgIncludes msg "timeout" then
    "Query took too long to execute - consider optimizing or increasing timeout"
  else if msgIncludes msg "connection" then
    "Connection issue - verify network connectivity and firewall settings"
  else "Check Azure Synapse workspace settings and ensure proper permissions"

def PoolType.toStr : PoolType → String
  | .dedicated => "dedicated"
  | .serverless => "serverless"

/-- The structured JSON payload `executeSqlQuery` serializes (success body
lines 40–58, failure body lines 62–79). -/
structure SqlQueryResult where
  success : Bool
  rowCount : Option Nat
  data : Option (List Row)
  error : Option String
  hint : Option String
  workspace : String
  database : String
  poolType : PoolType
  tenant : String
deriving DecidableEq, Repr

/-- Result of `connectionPool.getConnection` for this request. -/
inductive ConnectOutcome where
  | ok
  | err (msg : String)
deriving DecidableEq, Repr

/-- `executeSqlQuery` (lines 11–81), with `poolType = 'serverless'` as the
parameter default; connection establishment and statement execution are
oracles. Returns the payload, the result cache afterwards, and whether
`getConnection` was called. -/
def executeSqlQuery (tm : TenantManagerState) (workspace database query : String)
    (poolType? : Option PoolType) (tenant : Option String)
    (cache : QueryCache) (now : Nat) (connect : ConnectOutcome)
    (exec : ExecOutcome) : SqlQueryResult × QueryCache × Bool :=
  match getConnectionString tm tenant (poolType?.getD .serverless) with
  | none =>
    (⟨false, none, none,
      some ("No " ++ (poolType?.getD .serverless).toStr ++
        " pool configured for tenant: " ++ tenant.getD "default"),
      some (getErrorHint ("No " ++ (poolType?.getD .serverless).toStr ++
        " pool configured for tenant: " ++ tenant.getD "default")),
      workspace, database, poolType?.getD .serverless, tenant.getD "default"⟩,
     cache, false)
  | some _ =>
    match connect with
    | .err msg =>
      (⟨false, none, none, some msg, some (getErrorHint msg),
        workspace, database, poolType?.getD .serverless, tenant.getD "default"⟩,
       cache, true)
    | .ok =>
      match executeQuery cache query none now exec with
      | (.ok rows, cache', _) =>
        (⟨true, some rows.length, some rows, none, none,
          workspace, database, poolType?.getD .serverless, tenant.getD "default"⟩,
         cache', true)
      | (.error msg, cache', _) =>
        (⟨false, none, none, some msg, some (getErrorHint msg),
          workspace, database, poolType?.getD .serverless, tenant.getD "default"⟩,
         cache', true)

/-- C9: when the tenant has no pool of the requested kind (the descriptor
lookup is absent), `executeSqlQuery` surfaces the client error as a
structured failure payload — `success: false` with the configuration-error
message — without ever calling `getConnection`, and leaves the result cache
untouched. -/
theorem executeSqlQuery_no_pool (tm : TenantManagerState)
    (workspace database query : String) (poolType? : Option PoolType)
    (tenant : Option String) (cache : QueryCache) (now : Nat)
    (connect : ConnectOutcome) (exec : ExecOutcome)
    (h : getConnectionString tm tenant (poolType?.getD .serverless) = none) :
    (executeSqlQuery tm workspace database query poolType? tenant cache now
      connect exec).2.2 = false ∧
    (executeSqlQuery tm workspace database query poolType? tenant cache now
      connect exec).1.success = false ∧
    (executeSqlQuery tm workspace database query poolType? tenant cache now
      connect exec).1.error =
      some ("No " ++ (poolType?.getD .serverless).toStr ++
        " pool configured for tenant: " ++ tenant.getD "default") ∧
    (executeSqlQuery tm workspace database query poolType? tenant cache now
      connect exec).2.1 = cache := by
  unfold executeSqlQuery
  rw [h]
  exact ⟨rfl, rfl, rfl, rfl⟩

theorem executeSqlQuery_no_pool_witness :
    (executeSqlQuery demoRegistry "ws" "db" "SELECT 1" none (some "acme")
      emptyCache 0 .ok (.ok [])).2.2 = false ∧
    (executeSqlQuery demoRegistry "ws" "db" "SELECT 1" none (some "acme")
      emptyCache 0 .ok (.ok [])).1.success = false ∧
    (executeSqlQuery demoRegistry "ws" "db" "SELECT 1" none (some "acme")
      emptyCache 0 .ok (.ok [])).1.error =
      some "No serverless pool configured for tenant: acme" ∧
    (executeSqlQuery demoRegistry "ws" "db" "SELECT 1" none (some "acme")
      emptyCache 0 .ok (.ok [])).2.1 = emptyCache :=
  executeSqlQuery_no_pool demoRegistry "ws" "db" "SELECT 1" none (some "acme")
    emptyCache 0 .ok (.ok []) (by decide)

end SynapseMCP
